import Mathlib

/-!
Shallow embedding of the kanidm htmx login view driver
(`src/server/core/src/https/views/login.rs`).

The driver interprets `AuthState` outcomes produced by the external decision
engine (`qe_r_ref.handle_auth`), auto-selects singleton mechanism choices in a
bounded loop, renders exactly one view per request and applies the cookie
mutations for the session-continuity cookie (`COOKIE_AUTH_SESSION_ID`) and the
bearer token cookie (`COOKIE_BEARER_TOKEN`).

Encoding conventions: session identifiers (uuids) are `Nat`; opaque byte or
JSON payloads are `String`; the decision engine is a function parameter
indexed by the number of submissions already issued in this request, so one
run can observe a sequence of distinct outcomes; the effects that matter to
the specification (engine submissions, loop iterations) are returned
alongside the handler result.
-/

/-- The subset of `kanidmd_lib::prelude::OperationError` this view layer
produces itself; `other` stands for any further error an external call may
return. -/
inductive OperationError where
  | invalidSessionState
  | invalidState
  | other (code : Nat)
deriving DecidableEq, Repr

/-- `axum_extra::extract::cookie::SameSite`; `noneSite` is an absent/None
same-site attribute (the default of `Cookie::new`). -/
inductive SameSite where
  | strict
  | lax
  | noneSite
deriving DecidableEq, Repr

/-- A cookie as built by `Cookie::new` plus the `set_*` calls used in
`login.rs`. -/
structure Cookie where
  name : String
  value : String
  secure : Bool
  same_site : SameSite
  http_only : Bool
  domain : Option String
  path : Option String
deriving DecidableEq, Repr

/-- `Cookie::new(name, value)`: all attributes at their defaults. -/
def Cookie.new (n v : String) : Cookie :=
  { name := n, value := v, secure := false, same_site := SameSite.noneSite,
    http_only := false, domain := none, path := none }

/-- The request's cookie jar, as the value threaded through the handler:
`add` replaces any cookie of the same name, `remove` deletes by name. -/
abbrev CookieJar := List Cookie

/-- `CookieJar::add`: replace any cookie with the same name, then append. -/
def jar_add (jar : CookieJar) (c : Cookie) : CookieJar :=
  (jar.filter (fun x => x.name != c.name)) ++ [c]

/-- `CookieJar::remove(Cookie::from(n))`: drop the cookie named `n`. -/
def jar_remove (jar : CookieJar) (n : String) : CookieJar :=
  jar.filter (fun x => x.name != n)

/-- `CookieJar::get(n)`. -/
def jar_get (jar : CookieJar) (n : String) : Option Cookie :=
  jar.find? (fun x => x.name == n)

/-- Modelled from the spec: `kanidm_proto::internal::COOKIE_AUTH_SESSION_ID`
(the session-continuity cookie name, part of the wire contract; only its
distinctness from the bearer name matters here). -/
def COOKIE_AUTH_SESSION_ID : String := "auth-session-id"

/-- Modelled from the spec: `kanidm_proto::internal::COOKIE_BEARER_TOKEN`
(the bearer session token cookie name, part of the wire contract). -/
def COOKIE_BEARER_TOKEN : String := "bearer"

/-- Modelled from the spec: `kanidm_proto::v1::AuthMech` is a closed set of
authentication methods which this driver treats opaquely (cloned, forwarded,
listed), so it is embedded as an opaque code. -/
structure AuthMech where
  code : Nat
deriving DecidableEq, Repr

/-- Modelled from the spec: `kanidm_proto::v1::AuthAllowed`, the credential
prompt variants; the driver matches exactly the five supported ones, and
`Anonymous` is the remaining variant caught by the wildcard arm. Challenge
payloads are opaque strings. -/
inductive AuthAllowed where
  | Anonymous
  | BackupCode
  | Password
  | Totp
  | SecurityKey (chal : String)
  | Passkey (chal : String)
deriving DecidableEq, Repr

/-- Modelled from the spec: `kanidm_proto::v1::AuthIssueSession`. -/
inductive AuthIssueSession where
  | Token
  | Cookie
deriving DecidableEq, Repr

/-- Modelled from the spec: `kanidm_proto::v1::AuthCredential`; the Totp
value is the parsed u32, other payloads are opaque. -/
inductive AuthCredential where
  | Totp (v : Nat)
  | Password (s : String)
  | BackupCode (s : String)
  | SecurityKey (assertion : String)
  | Passkey (assertion : String)
deriving DecidableEq, Repr

/-- Modelled from the spec: the `kanidm_proto::v1::AuthStep` variants this
file submits. -/
inductive AuthStep where
  | Init2 (username : String) (issue : AuthIssueSession) (privileged : Bool)
  | Begin (mech : AuthMech)
  | Cred (cred : AuthCredential)
deriving DecidableEq, Repr

/-- `kanidmd_lib::idm::AuthState`: the decision-engine outcome interpreted by
the loop. The `Success` token (a `JwsCompact`) is embedded as the string the
code obtains via `token.to_string()`. -/
inductive AuthState where
  | Choose (allowed : List AuthMech)
  | Continue (allowed : List AuthAllowed)
  | Success (token : String) (issue : AuthIssueSession)
  | Denied (reason : String)
deriving DecidableEq, Repr

/-- `kanidmd_lib::idm::event::AuthResult`. -/
structure AuthResult where
  state : AuthState
  sessionid : Nat
deriving DecidableEq, Repr

/-- `enum LoginTotpError { None, Syntax }` (the `None` variant is named
`NoError` here). -/
inductive LoginTotpError where
  | NoError
  | Syntax
deriving DecidableEq, Repr

/-- The rendered view of one request: each constructor is one of the
`.into_response()` bodies of `login.rs` (rendering to markup is external). -/
inductive Rendered where
  | UnrecoverableErrorView (err_code : OperationError) (operation_id : Nat)
  | LoginMechView (mechs : List AuthMech)
  | LoginTotpView (errors : LoginTotpError)
  | LoginPasswordView
  | LoginBackupCodeView
  | LoginWebauthnView (passkey : Bool) (chal : String)
  | RedirectApps
  | RedirectDenied
deriving DecidableEq, Repr

/-- The parts of `ServerState` this file reads. `sign` is the composite
`Jws::into_json(SessionId) |> jws_signer.sign |> to_string`, whose failure the
code maps to `OperationError::InvalidSessionState`. -/
structure ServerState where
  secure_cookies : Bool
  domain : String
  sign : Nat → Except Unit String
  reinflate_uuid_from_bytes : String → Option Nat

/-- The decision client `qe_r_ref.handle_auth`, as a function of the number
of submissions already issued in this request, the optional session id and
the submitted step. -/
abbrev Engine := Nat → Option Nat → AuthStep → Except OperationError AuthResult

/-- One engine submission as recorded in a run's trace. -/
abbrev Submission := Option Nat × AuthStep

/-- Result of the state-resolution loop: `result` is the `Result<(jar,
response), OperationError>` the function body produces before
`.into_response()`; `submissions` are the engine submissions issued inside
the loop; `iterations` counts the loop-body executions that passed the
safety guard. -/
structure LoopOut where
  result : Except OperationError (CookieJar × Rendered)
  submissions : List Submission
  iterations : Nat
deriving Repr

/-- The session-continuity cookie exactly as the `AuthState::Choose` arm
builds it: http-only, SameSite Strict, secure from deployment config, no
domain, no path. -/
def continuity_cookie (st : ServerState) (token : String) : Cookie :=
  { Cookie.new COOKIE_AUTH_SESSION_ID token with
    secure := st.secure_cookies, same_site := SameSite.strict,
    http_only := true }

/-- The bearer token cookie exactly as the `AuthState::Success` arm builds
it: http-only, SameSite Lax, secure from deployment config, explicit domain,
path "/". -/
def bearer_cookie (st : ServerState) (token : String) : Cookie :=
  { Cookie.new COOKIE_BEARER_TOKEN token with
    secure := st.secure_cookies, same_site := SameSite.lax,
    http_only := true, domain := some st.domain, path := some "/" }

/-- The `loop` body of `partial_view_login_step`, with the `safety` counter
as structural fuel: `safety == 0` yields `Err(InvalidSessionState)`; a
`Choose` state signs the session id (failure also yields
`Err(InvalidSessionState)`), re-issues the continuity cookie, then dispatches
on the mechanism count, auto-resubmitting `AuthStep::Begin` on a singleton; a
`Continue` state dispatches on the single prompt; `Success` installs the
bearer cookie and removes the continuity cookie; `Denied` removes the
continuity cookie. -/
def login_step_loop (st : ServerState) (engine : Engine) (kopid : Nat)
    (sessionid : Nat) : Nat → CookieJar → AuthState → Nat → LoopOut
  | 0, _, _, _ =>
    ⟨Except.error OperationError.invalidSessionState, [], 0⟩
  | s + 1, jar, auth_state, calls =>
    match auth_state with
    | AuthState.Choose allowed =>
      match st.sign sessionid with
      | Except.error _ =>
        ⟨Except.error OperationError.invalidSessionState, [], 1⟩
      | Except.ok token =>
        let jar2 := jar_add jar (continuity_cookie st token)
        match allowed with
        | [] =>
          ⟨Except.ok (jar2,
            Rendered.UnrecoverableErrorView OperationError.invalidState kopid),
            [], 1⟩
        | [mech] =>
          match engine calls (some sessionid) (AuthStep.Begin mech) with
          | Except.error e =>
            ⟨Except.error e, [(some sessionid, AuthStep.Begin mech)], 1⟩
          | Except.ok inter =>
            let rest := login_step_loop st engine kopid sessionid s jar2
              inter.state (calls + 1)
            ⟨rest.result, (some sessionid, AuthStep.Begin mech) :: rest.submissions,
              rest.iterations + 1⟩
        | ms =>
          ⟨Except.ok (jar2, Rendered.LoginMechView ms), [], 1⟩
    | AuthState.Continue allowed =>
      match allowed with
      | [] =>
        ⟨Except.ok (jar,
          Rendered.UnrecoverableErrorView OperationError.invalidState kopid),
          [], 1⟩
      | [auth_allowed] =>
        match auth_allowed with
        | AuthAllowed.Totp =>
          ⟨Except.ok (jar, Rendered.LoginTotpView LoginTotpError.NoError), [], 1⟩
        | AuthAllowed.Password =>
          ⟨Except.ok (jar, Rendered.LoginPasswordView), [], 1⟩
        | AuthAllowed.BackupCode =>
          ⟨Except.ok (jar, Rendered.LoginBackupCodeView), [], 1⟩
        | AuthAllowed.SecurityKey chal =>
          ⟨Except.ok (jar, Rendered.LoginWebauthnView false chal), [], 1⟩
        | AuthAllowed.Passkey chal =>
          ⟨Except.ok (jar, Rendered.LoginWebauthnView true chal), [], 1⟩
        | AuthAllowed.Anonymous =>
          ⟨Except.error OperationError.invalidState, [], 1⟩
      | _ =>
        ⟨Except.error OperationError.invalidState, [], 1⟩
    | AuthState.Success token issue =>
      match issue with
      | AuthIssueSession.Token =>
        ⟨Except.error OperationError.invalidState, [], 1⟩
      | AuthIssueSession.Cookie =>
        let jar2 := jar_remove (jar_add jar (bearer_cookie st token))
          COOKIE_AUTH_SESSION_ID
        ⟨Except.ok (jar2, Rendered.RedirectApps), [], 1⟩
    | AuthState.Denied _ =>
      ⟨Except.ok (jar_remove jar COOKIE_AUTH_SESSION_ID,
        Rendered.RedirectDenied), [], 1⟩

/-- `partial_view_login_step`: unpack the `AuthResult` and run the loop with
`safety = 3`. `calls` is the number of engine submissions the caller already
issued in this request (the index the engine sees next). -/
def partial_view_login_step (st : ServerState) (engine : Engine) (kopid : Nat)
    (jar : CookieJar) (auth_result : AuthResult) (calls : Nat) : LoopOut :=
  login_step_loop st engine kopid auth_result.sessionid 3 jar auth_result.state calls

/-- The HTTP response a handler hands back: a view, plus `some jar` when the
handler returned `(jar, response)` (so the jar's cookie deltas are applied)
or `none` when it returned a bare template (no cookie mutations at all). -/
structure HttpResponse where
  view : Rendered
  cookies : Option CookieJar
deriving Repr

/-- How every caller of `partial_view_login_step` turns its result into a
response: `Ok(r)` is passed through, `Err(err_code)` renders
`UnrecoverableErrorView` without the jar. -/
def login_step_response (st : ServerState) (engine : Engine) (kopid : Nat)
    (jar : CookieJar) (auth_result : AuthResult) (calls : Nat) : HttpResponse :=
  match (partial_view_login_step st engine kopid jar auth_result calls).result with
  | Except.ok (jar2, r) => ⟨r, some jar2⟩
  | Except.error e => ⟨Rendered.UnrecoverableErrorView e kopid, none⟩

/-- The cookie set the client holds after receiving `resp`, given its set
`before` the request: a response without a jar leaves it untouched. -/
def client_cookies_after (resp : HttpResponse) (before : CookieJar) : CookieJar :=
  match resp.cookies with
  | some j => j
  | none => before

/-- The session id `credential_step` (and the other posts) read from the
continuity cookie: `jar.get(COOKIE_AUTH_SESSION_ID)` then
`reinflate_uuid_from_bytes` on its value. -/
def session_id_from_jar (st : ServerState) (jar : CookieJar) : Option Nat :=
  ((jar_get jar COOKIE_AUTH_SESSION_ID).map Cookie.value).bind
    st.reinflate_uuid_from_bytes

/-- `credential_step`: read the optional session id from the jar, submit
`AuthStep::Cred(auth_cred)`, then hand the result to
`partial_view_login_step`; any fault renders `UnrecoverableErrorView` with no
jar. Also returns every engine submission made during the request. -/
def credential_step (st : ServerState) (engine : Engine) (kopid : Nat)
    (jar : CookieJar) (auth_cred : AuthCredential) :
    HttpResponse × List Submission :=
  let maybe_sessionid := session_id_from_jar st jar
  let step := AuthStep.Cred auth_cred
  match engine 0 maybe_sessionid step with
  | Except.error e =>
    (⟨Rendered.UnrecoverableErrorView e kopid, none⟩, [(maybe_sessionid, step)])
  | Except.ok ar =>
    let out := partial_view_login_step st engine kopid jar ar 1
    match out.result with
    | Except.ok (jar2, r) =>
      (⟨r, some jar2⟩, (maybe_sessionid, step) :: out.submissions)
    | Except.error e =>
      (⟨Rendered.UnrecoverableErrorView e kopid, none⟩,
        (maybe_sessionid, step) :: out.submissions)

/-- The code points of Rust's `char::is_whitespace` (Unicode `White_Space`),
used by `str::trim`. -/
def rust_whitespace_codes : List Nat :=
  [9, 10, 11, 12, 13, 32, 133, 160, 5760,
   8192, 8193, 8194, 8195, 8196, 8197, 8198, 8199, 8200, 8201, 8202,
   8232, 8233, 8239, 8287, 12288]

/-- Rust `char::is_whitespace`. -/
def rust_char_is_whitespace (c : Char) : Bool :=
  rust_whitespace_codes.contains c.toNat

/-- Rust `str::trim`: drop leading and trailing whitespace. -/
def rust_str_trim (s : String) : String :=
  String.mk (((s.data.dropWhile rust_char_is_whitespace).reverse.dropWhile
    rust_char_is_whitespace).reverse)

def U32_MAX : Nat := 4294967295

/-- Value of a list of ascii digits. -/
def digits_to_nat (ds : List Char) : Nat :=
  ds.foldl (fun a c => a * 10 + (c.toNat - 48)) 0

/-- An optional single leading `+` sign, as `u32::from_str` accepts. -/
def strip_plus (cs : List Char) : List Char :=
  match cs with
  | c :: rest => if c = '+' then rest else c :: rest
  | [] => []

/-- Rust `u32::from_str` / `str::parse::<u32>`: an optional `+`, then one or
more ascii digits, value at most `u32::MAX`; anything else is an error
(`none`). -/
def u32_from_str (s : String) : Option Nat :=
  let ds := strip_plus s.data
  if ds.isEmpty then none
  else if ds.all Char.isDigit then
    if digits_to_nat ds ≤ U32_MAX then some (digits_to_nat ds) else none
  else none

/-- `partial_view_login_totp_post`: trim the form value, parse it as u32;
on failure re-render the TOTP view with the syntax error marker (no jar, no
engine call); on success submit `AuthCredential::Totp` via `credential_step`. -/
def partial_view_login_totp_post (st : ServerState) (engine : Engine)
    (kopid : Nat) (jar : CookieJar) (totp_form : String) :
    HttpResponse × List Submission :=
  match u32_from_str (rust_str_trim totp_form) with
  | none => (⟨Rendered.LoginTotpView LoginTotpError.Syntax, none⟩, [])
  | some totp => credential_step st engine kopid jar (AuthCredential.Totp totp)

/-- Fixture: a server state whose signer always succeeds. -/
def stW : ServerState :=
  { secure_cookies := true, domain := "idm.example.com",
    sign := fun _ => Except.ok "sig", reinflate_uuid_from_bytes := fun _ => some 7 }

/-- Fixture: an arbitrary mechanism. -/
def mW : AuthMech := ⟨0⟩

/-- Fixture: a decision engine that always answers with a singleton Choose. -/
def engW : Engine := fun _ _ _ => Except.ok ⟨AuthState.Choose [mW], 2⟩

/-- Fixture: a decision engine that always faults. -/
def engErrW : Engine := fun _ _ _ => Except.error (OperationError.other 3)

/-- Fixture: a decision engine that always answers with a password prompt. -/
def engContW : Engine := fun _ _ _ =>
  Except.ok ⟨AuthState.Continue [AuthAllowed.Password], 9⟩

/-- Fixture: a bearer cookie already held by the client before the request. -/
def staleBearer : Cookie := Cookie.new COOKIE_BEARER_TOKEN "stale"

theorem jar_find_filter_none (jar : CookieJar) (n : String) :
    (jar.filter (fun x => x.name != n)).find? (fun x => x.name == n) = none := by
  induction jar with
  | nil => rfl
  | cons a t ih =>
    by_cases h : a.name = n
    · simp [List.filter_cons, h, ih]
    · simp [List.filter_cons, h, ih]

theorem find?_filter_other (t : List Cookie) (n m : String) (h : m ≠ n) :
    (t.filter (fun x => x.name != n)).find? (fun x => x.name == m)
      = t.find? (fun x => x.name == m) := by
  induction t with
  | nil => rfl
  | cons a t ih =>
    rw [List.filter_cons]
    by_cases h2 : a.name = n
    · rw [if_neg (by simp [h2])]
      rw [List.find?_cons_of_neg _ (by simp [h2]; exact h.symm)]
      exact ih
    · rw [if_pos (by simp [h2])]
      by_cases h3 : a.name = m
      · rw [List.find?_cons_of_pos _ (by simp [h3]),
          List.find?_cons_of_pos _ (by simp [h3])]
      · rw [List.find?_cons_of_neg _ (by simp [h3]),
          List.find?_cons_of_neg _ (by simp [h3])]
        exact ih

theorem jar_get_add_same (jar : CookieJar) (c : Cookie) :
    jar_get (jar_add jar c) c.name = some c := by
  unfold jar_get jar_add
  rw [List.find?_append, jar_find_filter_none]
  simp

theorem jar_get_remove_same (jar : CookieJar) (n : String) :
    jar_get (jar_remove jar n) n = none :=
  jar_find_filter_none jar n

theorem jar_get_remove_other (jar : CookieJar) (n m : String) (h : m ≠ n) :
    jar_get (jar_remove jar n) m = jar_get jar m :=
  find?_filter_other jar n m h

theorem login_step_loop_iterations_le (st : ServerState) (engine : Engine)
    (kopid sessionid : Nat) :
    ∀ (safety : Nat) (jar : CookieJar) (auth_state : AuthState) (calls : Nat),
      (login_step_loop st engine kopid sessionid safety jar auth_state calls).iterations
        ≤ safety := by
  intro safety
  induction safety with
  | zero => intro jar s c; simp [login_step_loop]
  | succ n ih =>
    intro jar auth_state calls
    cases auth_state with
    | Choose allowed =>
      cases hs : st.sign sessionid with
      | error u => simp [login_step_loop, hs]
      | ok tok =>
        rcases allowed with _ | ⟨a, _ | ⟨b, t⟩⟩
        · simp [login_step_loop, hs]
        · cases he : engine calls (some sessionid) (AuthStep.Begin a) with
          | error e => simp [login_step_loop, hs, he]
          | ok inter =>
            simp only [login_step_loop, hs, he]
            have := ih (jar_add jar (continuity_cookie st tok)) inter.state (calls + 1)
            omega
        · simp [login_step_loop, hs]
    | Continue allowed =>
      rcases allowed with _ | ⟨a, _ | ⟨b, t⟩⟩
      · simp [login_step_loop]
      · cases a <;> simp [login_step_loop]
      · simp [login_step_loop]
    | Success token issue => cases issue <;> simp [login_step_loop]
    | Denied r => simp [login_step_loop]

theorem login_step_loop_mech_view_ge_two (st : ServerState) (engine : Engine)
    (kopid sessionid : Nat) :
    ∀ (safety : Nat) (jar : CookieJar) (auth_state : AuthState) (calls : Nat)
      (j : CookieJar) (l : List AuthMech),
      (login_step_loop st engine kopid sessionid safety jar auth_state calls).result
          = Except.ok (j, Rendered.LoginMechView l) →
      2 ≤ l.length := by
  intro safety
  induction safety with
  | zero => intro jar s c j l h; simp [login_step_loop] at h
  | succ n ih =>
    intro jar auth_state calls j l h
    cases auth_state with
    | Choose allowed =>
      cases hs : st.sign sessionid with
      | error u => simp [login_step_loop, hs] at h
      | ok tok =>
        rcases allowed with _ | ⟨a, _ | ⟨b, t⟩⟩
        · simp [login_step_loop, hs] at h
        · cases he : engine calls (some sessionid) (AuthStep.Begin a) with
          | error e => simp [login_step_loop, hs, he] at h
          | ok inter =>
            simp only [login_step_loop, hs, he] at h
            exact ih _ inter.state (calls + 1) j l h
        · simp [login_step_loop, hs] at h
          rcases h with ⟨h1, h2⟩
          subst h2
          simp [Nat.succ_le_succ]
    | Continue allowed =>
      rcases allowed with _ | ⟨a, _ | ⟨b, t⟩⟩
      · simp [login_step_loop] at h
      · cases a <;> simp [login_step_loop] at h
      · simp [login_step_loop] at h
    | Success token issue => cases issue <;> simp [login_step_loop] at h
    | Denied r => simp [login_step_loop] at h

theorem login_step_loop_const_choose (st : ServerState) (f : Nat → String)
    (hsign : ∀ i, st.sign i = Except.ok (f i)) (kopid sid sid2 : Nat) (m : AuthMech) :
    ∀ (safety : Nat) (jar : CookieJar) (calls : Nat),
      (login_step_loop st (fun _ _ _ => Except.ok ⟨AuthState.Choose [m], sid2⟩)
        kopid sid safety jar (AuthState.Choose [m]) calls).result
          = Except.error OperationError.invalidSessionState := by
  intro safety
  induction safety with
  | zero => intro jar calls; simp [login_step_loop]
  | succ n ih =>
    intro jar calls
    simp only [login_step_loop, hsign sid]
    exact ih _ _

/-- C1: the state-resolution loop of `partial_view_login_step` (fuel 3)
executes at most 3 iterations for every engine and outcome sequence; and with
a decision engine that always returns a singleton `Choose` (under a working
signer) the driver exhausts the budget, fails with
`OperationError.invalidSessionState`, and its caller renders the
unrecoverable-error view with no cookie mutations. -/
theorem C1_loop_budget :
    (∀ (st : ServerState) (engine : Engine) (kopid : Nat) (jar : CookieJar)
        (ar : AuthResult) (calls : Nat),
      (partial_view_login_step st engine kopid jar ar calls).iterations ≤ 3)
    ∧ (∀ (st : ServerState) (f : Nat → String),
        (∀ i, st.sign i = Except.ok (f i)) →
        ∀ (kopid : Nat) (jar : CookieJar) (sid sid2 : Nat) (m : AuthMech) (calls : Nat),
        (partial_view_login_step st (fun _ _ _ => Except.ok ⟨AuthState.Choose [m], sid2⟩)
            kopid jar ⟨AuthState.Choose [m], sid⟩ calls).result
          = Except.error OperationError.invalidSessionState
        ∧ login_step_response st (fun _ _ _ => Except.ok ⟨AuthState.Choose [m], sid2⟩)
            kopid jar ⟨AuthState.Choose [m], sid⟩ calls
          = ⟨Rendered.UnrecoverableErrorView OperationError.invalidSessionState kopid, none⟩) := by
  constructor
  · intro st engine kopid jar ar calls
    exact login_step_loop_iterations_le st engine kopid ar.sessionid 3 jar ar.state calls
  · intro st f hsign kopid jar sid sid2 m calls
    have h2 : (partial_view_login_step st
        (fun _ _ _ => Except.ok ⟨AuthState.Choose [m], sid2⟩)
        kopid jar ⟨AuthState.Choose [m], sid⟩ calls).result
        = Except.error OperationError.invalidSessionState :=
      login_step_loop_const_choose st f hsign kopid sid sid2 m 3 jar calls
    refine ⟨h2, ?_⟩
    unfold login_step_response
    rw [h2]

/-- C1 witness: concrete run with the always-singleton-Choose engine. -/
theorem C1_loop_budget_witness :
    (partial_view_login_step stW engW 0 [] ⟨AuthState.Choose [mW], 1⟩ 0).iterations ≤ 3
    ∧ (partial_view_login_step stW engW 0 [] ⟨AuthState.Choose [mW], 1⟩ 0).result
      = Except.error OperationError.invalidSessionState :=
  ⟨C1_loop_budget.1 stW engW 0 [] ⟨AuthState.Choose [mW], 1⟩ 0,
    (C1_loop_budget.2 stW (fun _ => "sig") (fun _ => rfl) 0 [] 1 2 mW 0).1⟩

/-- C2: on `Success` with `Cookie` issuance the driver renders the redirect
to the application landing with the bearer cookie set (http-only, SameSite
Lax, secure iff configured, explicit domain, path "/"), the continuity cookie
absent, and no engine submissions; on `Success` with the non-cookie `Token`
issuance mode the driver fails with `OperationError.invalidState` and the
caller renders the unrecoverable-error view with no cookies at all. -/
theorem C2_success_cookie_issuance :
    ∀ (st : ServerState) (engine : Engine) (kopid sid : Nat) (jar : CookieJar)
      (token : String) (calls : Nat),
      (∃ jar2,
        (partial_view_login_step st engine kopid jar
            ⟨AuthState.Success token AuthIssueSession.Cookie, sid⟩ calls).result
          = Except.ok (jar2, Rendered.RedirectApps)
        ∧ jar_get jar2 COOKIE_BEARER_TOKEN = some (bearer_cookie st token)
        ∧ jar_get jar2 COOKIE_AUTH_SESSION_ID = none
        ∧ (partial_view_login_step st engine kopid jar
            ⟨AuthState.Success token AuthIssueSession.Cookie, sid⟩ calls).submissions = [])
      ∧ (bearer_cookie st token).http_only = true
      ∧ (bearer_cookie st token).same_site = SameSite.lax
      ∧ (bearer_cookie st token).secure = st.secure_cookies
      ∧ (bearer_cookie st token).domain = some st.domain
      ∧ (bearer_cookie st token).path = some "/"
      ∧ (bearer_cookie st token).value = token
      ∧ (partial_view_login_step st engine kopid jar
          ⟨AuthState.Success token AuthIssueSession.Token, sid⟩ calls).result
        = Except.error OperationError.invalidState
      ∧ login_step_response st engine kopid jar
          ⟨AuthState.Success token AuthIssueSession.Token, sid⟩ calls
        = ⟨Rendered.UnrecoverableErrorView OperationError.invalidState kopid, none⟩ := by
  intro st engine kopid sid jar token calls
  refine ⟨⟨jar_remove (jar_add jar (bearer_cookie st token)) COOKIE_AUTH_SESSION_ID,
    rfl, ?_, ?_, rfl⟩, rfl, rfl, rfl, rfl, rfl, rfl, rfl, rfl⟩
  · rw [jar_get_remove_other _ _ _ (by decide)]
    exact jar_get_add_same jar (bearer_cookie st token)
  · exact jar_get_remove_same _ _

/-- C3 counterexample: the claim quantifies over every incoming cookie jar,
but with an incoming jar already holding a bearer cookie a `Denied` outcome
leaves that bearer cookie in the resulting cookie set (the code removes only
the continuity cookie). -/
theorem C3_denied_bearer_cex :
    login_step_response stW engW 0 [staleBearer] ⟨AuthState.Denied "denied", 1⟩ 0
      = ⟨Rendered.RedirectDenied, some [staleBearer]⟩
    ∧ jar_get [staleBearer] COOKIE_BEARER_TOKEN = some staleBearer := by
  exact ⟨rfl, rfl⟩

/-- C3 (amended): on every `Denied` outcome the driver removes the
session-continuity cookie, renders the redirect to the denied landing with
the denial reason absent from the response (the output is the same for every
reason), issues no engine submissions, and neither adds nor removes a bearer
cookie — the bearer cookie is present afterwards exactly when the incoming
jar already held it (so when the incoming jar lacks it, the result contains
neither cookie). -/
theorem C3_denied_amended :
    ∀ (st : ServerState) (engine : Engine) (kopid sid : Nat) (jar : CookieJar)
      (reason : String) (calls : Nat),
      ∃ jar2,
        (partial_view_login_step st engine kopid jar
            ⟨AuthState.Denied reason, sid⟩ calls).result
          = Except.ok (jar2, Rendered.RedirectDenied)
        ∧ jar_get jar2 COOKIE_AUTH_SESSION_ID = none
        ∧ jar_get jar2 COOKIE_BEARER_TOKEN = jar_get jar COOKIE_BEARER_TOKEN
        ∧ (partial_view_login_step st engine kopid jar
            ⟨AuthState.Denied reason, sid⟩ calls).submissions = []
        ∧ partial_view_login_step st engine kopid jar ⟨AuthState.Denied reason, sid⟩ calls
          = partial_view_login_step st engine kopid jar ⟨AuthState.Denied "", sid⟩ calls := by
  intro st engine kopid sid jar reason calls
  exact ⟨jar_remove jar COOKIE_AUTH_SESSION_ID, rfl, jar_get_remove_same _ _,
    jar_get_remove_other _ _ _ (by decide), rfl, rfl⟩

/-- C4: whenever the loop result is a fault the caller's response is the
unrecoverable-error view with no cookie mutations (the client cookie set is
unchanged); a decision-client fault during the `Choose` auto-resubmission —
after the continuity cookie went into the local jar — propagates as exactly
such a fault; and a fault on the initial credential submission renders the
unrecoverable-error view with no cookies. -/
theorem C4_fault_leaves_cookies_untouched :
    (∀ (st : ServerState) (engine : Engine) (kopid : Nat) (jar : CookieJar)
        (ar : AuthResult) (calls : Nat) (e : OperationError),
      (partial_view_login_step st engine kopid jar ar calls).result = Except.error e →
      login_step_response st engine kopid jar ar calls
          = ⟨Rendered.UnrecoverableErrorView e kopid, none⟩
        ∧ client_cookies_after (login_step_response st engine kopid jar ar calls) jar = jar)
    ∧ (∀ (st : ServerState) (engine : Engine) (kopid sid : Nat) (jar : CookieJar)
        (m : AuthMech) (calls : Nat) (tok : String) (e : OperationError),
      st.sign sid = Except.ok tok →
      engine calls (some sid) (AuthStep.Begin m) = Except.error e →
      (partial_view_login_step st engine kopid jar ⟨AuthState.Choose [m], sid⟩ calls).result
        = Except.error e)
    ∧ (∀ (st : ServerState) (engine : Engine) (kopid : Nat) (jar : CookieJar)
        (cred : AuthCredential) (e : OperationError),
      engine 0 (session_id_from_jar st jar) (AuthStep.Cred cred) = Except.error e →
      (credential_step st engine kopid jar cred).1
        = ⟨Rendered.UnrecoverableErrorView e kopid, none⟩) := by
  refine ⟨?_, ?_, ?_⟩
  · intro st engine kopid jar ar calls e h
    constructor
    · unfold login_step_response
      rw [h]
    · simp only [client_cookies_after, login_step_response, h]
  · intro st engine kopid sid jar m calls tok e h1 h2
    show (login_step_loop st engine kopid sid 3 jar (AuthState.Choose [m]) calls).result
      = Except.error e
    rw [show (3 : Nat) = 2 + 1 from rfl]
    simp [login_step_loop, h1, h2]
  · intro st engine kopid jar cred e h
    simp only [credential_step]
    rw [h]

/-- C4 witness: a faulting engine at the singleton-Choose resubmission and at
the credential submission, with the concrete fixtures. -/
theorem C4_witness :
    login_step_response stW engErrW 0 [] ⟨AuthState.Choose [mW], 1⟩ 0
      = ⟨Rendered.UnrecoverableErrorView (OperationError.other 3) 0, none⟩
    ∧ (partial_view_login_step stW engErrW 0 [] ⟨AuthState.Choose [mW], 1⟩ 0).result
      = Except.error (OperationError.other 3)
    ∧ (credential_step stW engErrW 0 [] (AuthCredential.Password "pw")).1
      = ⟨Rendered.UnrecoverableErrorView (OperationError.other 3) 0, none⟩ :=
  ⟨(C4_fault_leaves_cookies_untouched.1 stW engErrW 0 [] ⟨AuthState.Choose [mW], 1⟩ 0
      (OperationError.other 3) rfl).1,
    C4_fault_leaves_cookies_untouched.2.1 stW engErrW 0 1 [] mW 0 "sig"
      (OperationError.other 3) rfl rfl,
    C4_fault_leaves_cookies_untouched.2.2 stW engErrW 0 [] (AuthCredential.Password "pw")
      (OperationError.other 3) rfl⟩

/-- C5: on a `Choose` outcome with exactly one mechanism (under a working
signer) the driver issues exactly one additional `AuthStep.Begin` submission
with the current session identifier, replaces the outcome by the submission's
result and re-enters the loop (its submissions, result and iteration count
continue from that resubmission), and a mechanism-selection view is only ever
rendered for a mechanism list with at least two entries — never for the
singleton outcome. -/
theorem C5_choose_singleton_autoselect :
    ∀ (st : ServerState) (engine : Engine) (kopid sid : Nat) (s : Nat)
      (jar : CookieJar) (m : AuthMech) (calls : Nat) (tok : String)
      (inter : AuthResult),
      st.sign sid = Except.ok tok →
      engine calls (some sid) (AuthStep.Begin m) = Except.ok inter →
      (login_step_loop st engine kopid sid (s + 1) jar (AuthState.Choose [m]) calls).submissions
        = (some sid, AuthStep.Begin m)
          :: (login_step_loop st engine kopid sid s
              (jar_add jar (continuity_cookie st tok)) inter.state (calls + 1)).submissions
      ∧ (login_step_loop st engine kopid sid (s + 1) jar (AuthState.Choose [m]) calls).result
        = (login_step_loop st engine kopid sid s
            (jar_add jar (continuity_cookie st tok)) inter.state (calls + 1)).result
      ∧ (login_step_loop st engine kopid sid (s + 1) jar (AuthState.Choose [m]) calls).iterations
        = (login_step_loop st engine kopid sid s
            (jar_add jar (continuity_cookie st tok)) inter.state (calls + 1)).iterations + 1
      ∧ (∀ (j : CookieJar) (l : List AuthMech),
          (login_step_loop st engine kopid sid (s + 1) jar (AuthState.Choose [m]) calls).result
            = Except.ok (j, Rendered.LoginMechView l) → 2 ≤ l.length) := by
  intro st engine kopid sid s jar m calls tok inter hs he
  refine ⟨?_, ?_, ?_, ?_⟩
  · simp [login_step_loop, hs, he]
  · simp [login_step_loop, hs, he]
  · simp [login_step_loop, hs, he]
  · intro j l h
    exact login_step_loop_mech_view_ge_two st engine kopid sid (s + 1) jar _ calls j l h

/-- C5 witness: the singleton Choose auto-selects once against an engine that
then answers with a password prompt. -/
theorem C5_choose_singleton_autoselect_witness :
    (login_step_loop stW engContW 0 1 3 [] (AuthState.Choose [mW]) 0).submissions
      = (some 1, AuthStep.Begin mW)
        :: (login_step_loop stW engContW 0 1 2 (jar_add [] (continuity_cookie stW "sig"))
            (AuthState.Continue [AuthAllowed.Password]) 1).submissions :=
  (C5_choose_singleton_autoselect stW engContW 0 1 2 [] mW 0 "sig"
    ⟨AuthState.Continue [AuthAllowed.Password], 9⟩ rfl rfl).1

/-- C6: on every `Choose` outcome (under a working signer) the continuity
cookie is rebuilt with http-only, SameSite Strict, secure iff configured and
no explicit domain, and is added to the jar before the mechanism count is
inspected: with an empty mechanism list the driver renders the
unrecoverable-error view with the stable `OperationError.invalidState` code,
makes no further submissions, and the freshly issued continuity cookie is in
that response's jar; with two or more mechanisms the fresh cookie likewise
accompanies the selection view. -/
theorem C6_choose_reissues_continuity :
    ∀ (st : ServerState) (engine : Engine) (kopid sid : Nat) (s : Nat)
      (jar : CookieJar) (calls : Nat) (tok : String),
      st.sign sid = Except.ok tok →
      ((continuity_cookie st tok).http_only = true
        ∧ (continuity_cookie st tok).same_site = SameSite.strict
        ∧ (continuity_cookie st tok).secure = st.secure_cookies
        ∧ (continuity_cookie st tok).domain = none)
      ∧ login_step_loop st engine kopid sid (s + 1) jar (AuthState.Choose []) calls
        = ⟨Except.ok (jar_add jar (continuity_cookie st tok),
            Rendered.UnrecoverableErrorView OperationError.invalidState kopid), [], 1⟩
      ∧ jar_get (jar_add jar (continuity_cookie st tok)) COOKIE_AUTH_SESSION_ID
        = some (continuity_cookie st tok)
      ∧ (∀ (a b : AuthMech) (t : List AuthMech),
          login_step_loop st engine kopid sid (s + 1) jar
              (AuthState.Choose (a :: b :: t)) calls
            = ⟨Except.ok (jar_add jar (continuity_cookie st tok),
                Rendered.LoginMechView (a :: b :: t)), [], 1⟩) := by
  intro st engine kopid sid s jar calls tok hs
  refine ⟨⟨rfl, rfl, rfl, rfl⟩, ?_, ?_, ?_⟩
  · simp [login_step_loop, hs]
  · exact jar_get_add_same jar (continuity_cookie st tok)
  · intro a b t
    simp [login_step_loop, hs]

/-- C6 witness: the empty-mechanism Choose at concrete inputs. -/
theorem C6_choose_reissues_continuity_witness :
    login_step_loop stW engW 0 1 1 [] (AuthState.Choose []) 0
      = ⟨Except.ok (jar_add [] (continuity_cookie stW "sig"),
          Rendered.UnrecoverableErrorView OperationError.invalidState 0), [], 1⟩ :=
  (C6_choose_reissues_continuity stW engW 0 1 0 [] 0 "sig" rfl).2.1

/-- C7: a `Continue` outcome with exactly one prompt of a supported variant
renders the matching view one-to-one (password, TOTP, backup code,
security-key challenge, passkey challenge); zero prompts, a single prompt of
the unsupported variant, or more than one prompt all produce an
unrecoverable-error outcome; in every case no engine submission is made. -/
theorem C7_continue_prompt_dispatch :
    ∀ (st : ServerState) (engine : Engine) (kopid sid : Nat) (s : Nat)
      (jar : CookieJar) (calls : Nat),
      login_step_loop st engine kopid sid (s + 1) jar
          (AuthState.Continue [AuthAllowed.Password]) calls
        = ⟨Except.ok (jar, Rendered.LoginPasswordView), [], 1⟩
      ∧ login_step_loop st engine kopid sid (s + 1) jar
          (AuthState.Continue [AuthAllowed.Totp]) calls
        = ⟨Except.ok (jar, Rendered.LoginTotpView LoginTotpError.NoError), [], 1⟩
      ∧ login_step_loop st engine kopid sid (s + 1) jar
          (AuthState.Continue [AuthAllowed.BackupCode]) calls
        = ⟨Except.ok (jar, Rendered.LoginBackupCodeView), [], 1⟩
      ∧ (∀ chal, login_step_loop st engine kopid sid (s + 1) jar
          (AuthState.Continue [AuthAllowed.SecurityKey chal]) calls
        = ⟨Except.ok (jar, Rendered.LoginWebauthnView false chal), [], 1⟩)
      ∧ (∀ chal, login_step_loop st engine kopid sid (s + 1) jar
          (AuthState.Continue [AuthAllowed.Passkey chal]) calls
        = ⟨Except.ok (jar, Rendered.LoginWebauthnView true chal), [], 1⟩)
      ∧ login_step_loop st engine kopid sid (s + 1) jar
          (AuthState.Continue []) calls
        = ⟨Except.ok (jar,
            Rendered.UnrecoverableErrorView OperationError.invalidState kopid), [], 1⟩
      ∧ login_step_loop st engine kopid sid (s + 1) jar
          (AuthState.Continue [AuthAllowed.Anonymous]) calls
        = ⟨Except.error OperationError.invalidState, [], 1⟩
      ∧ (∀ (a b : AuthAllowed) (t : List AuthAllowed),
          login_step_loop st engine kopid sid (s + 1) jar
              (AuthState.Continue (a :: b :: t)) calls
            = ⟨Except.error OperationError.invalidState, [], 1⟩) := by
  intro st engine kopid sid s jar calls
  refine ⟨rfl, rfl, rfl, fun chal => rfl, fun chal => rfl, rfl, rfl, fun a b t => rfl⟩

/-- C8: a TOTP form submission is trimmed of surrounding whitespace and must
parse as an unsigned integer before any engine call: " 123456 " is forwarded
to the decision client as `AuthCredential.Totp 123456` (the first and only
budget-consuming submission of the request), while "abc123" is rejected
locally — the TOTP view is re-rendered with the syntax-error marker, no
cookie is touched and zero engine submissions are made. -/
theorem C8_totp_trim_and_parse :
    ∀ (st : ServerState) (engine : Engine) (kopid : Nat) (jar : CookieJar),
      partial_view_login_totp_post st engine kopid jar " 123456 "
        = credential_step st engine kopid jar (AuthCredential.Totp 123456)
      ∧ (partial_view_login_totp_post st engine kopid jar " 123456 ").2.head?
        = some (session_id_from_jar st jar, AuthStep.Cred (AuthCredential.Totp 123456))
      ∧ partial_view_login_totp_post st engine kopid jar "abc123"
        = (⟨Rendered.LoginTotpView LoginTotpError.Syntax, none⟩, []) := by
  intro st engine kopid jar
  refine ⟨rfl, ?_, rfl⟩
  show (credential_step st engine kopid jar (AuthCredential.Totp 123456)).2.head? = _
  simp only [credential_step]
  cases h : engine 0 (session_id_from_jar st jar)
      (AuthStep.Cred (AuthCredential.Totp 123456)) with
  | error e => simp
  | ok ar =>
    cases h2 : (partial_view_login_step st engine kopid jar ar 1).result with
    | error e => simp [h2]
    | ok v =>
      rcases v with ⟨jar2, r⟩
      simp [h2]

/-- C9: when the driver's entry outcome is `Continue` the response's cookie
set equals the incoming one — whichever prompt list arrives, the branch
neither adds nor removes a cookie, and no engine submission is made. -/
theorem C9_continue_frame :
    ∀ (st : ServerState) (engine : Engine) (kopid : Nat) (jar : CookieJar)
      (ar : AuthResult) (allowed : List AuthAllowed) (calls : Nat),
      ar.state = AuthState.Continue allowed →
      client_cookies_after (login_step_response st engine kopid jar ar calls) jar = jar
      ∧ (partial_view_login_step st engine kopid jar ar calls).submissions = [] := by
  intro st engine kopid jar ar allowed calls h
  obtain ⟨state, sid⟩ := ar
  simp only at h
  subst h
  rcases allowed with _ | ⟨a, _ | ⟨b, t⟩⟩
  · exact ⟨rfl, rfl⟩
  · cases a <;> exact ⟨rfl, rfl⟩
  · exact ⟨rfl, rfl⟩

/-- C9 witness: a password prompt entry with a non-empty incoming jar. -/
theorem C9_continue_frame_witness :
    client_cookies_after (login_step_response stW engW 0 [staleBearer]
      ⟨AuthState.Continue [AuthAllowed.Password], 1⟩ 0) [staleBearer] = [staleBearer] :=
  (C9_continue_frame stW engW 0 [staleBearer] ⟨AuthState.Continue [AuthAllowed.Password], 1⟩
    [AuthAllowed.Password] 0 rfl).1

/-- C10: the TOTP handler parses with `u32::from_str`, so a well-formed
digit string denoting a value above `u32::MAX` is rejected as a syntax error
before any engine call: every nonempty all-digit string with value above
`U32_MAX` parses to `none`, and the handler maps "4294967296" to the
syntax-marked TOTP view with zero engine submissions. -/
theorem C10_totp_u32_range :
    (∀ s : String, s.data ≠ [] → s.data.all Char.isDigit = true →
      U32_MAX < digits_to_nat s.data → u32_from_str s = none)
    ∧ (∀ (st : ServerState) (engine : Engine) (kopid : Nat) (jar : CookieJar),
        partial_view_login_totp_post st engine kopid jar "4294967296"
          = (⟨Rendered.LoginTotpView LoginTotpError.Syntax, none⟩, [])) := by
  constructor
  · intro s hne hdig hgt
    rcases hd : s.data with _ | ⟨c, rest⟩
    · exact absurd hd hne
    rw [hd] at hdig hgt
    have hc : c.isDigit = true := by
      rw [List.all_cons, Bool.and_eq_true] at hdig
      exact hdig.1
    have hplus : ¬ c = '+' := by
      intro he
      rw [he] at hc
      exact absurd hc (by decide)
    simp only [u32_from_str, strip_plus, hd]
    rw [if_neg hplus]
    simp only [List.isEmpty_cons, Bool.false_eq_true, if_false]
    rw [if_pos hdig, if_neg (Nat.not_le.mpr hgt)]
  · intro st engine kopid jar
    rfl

/-- C10 witness: the concrete overflowing digit string 4294967296 = 2^32. -/
theorem C10_totp_u32_range_witness :
    u32_from_str "4294967296" = none
    ∧ partial_view_login_totp_post stW engW 0 [] "4294967296"
      = (⟨Rendered.LoginTotpView LoginTotpError.Syntax, none⟩, []) :=
  ⟨C10_totp_u32_range.1 "4294967296" (by decide) (by decide) (by decide),
    C10_totp_u32_range.2 stW engW 0 []⟩
